import Mathlib

/-!
Shallow embedding of the BetterSmoke vat-api service.

The repository is a small Express service.  Its core is the VAT-validation
orchestrator of `src/server.js` (second revision in that file, the handler
for `POST /api/validate-vat`): normalize the identifier, try the primary
VIES registry under an 8 s cap, retry once under a 6 s cap on a
transient-unavailable fault, fall back to the vatlayer provider under an
8 s cap, all inside a 20 s budget, and fail open (`valid: true`) when
nothing succeeded.  Earlier revisions (`src/unnamed/part_000`,
`src/unnamed/part_001`) instead surface a 500 on total failure.  The
customer-directory lookup (`findCustomerByEmail`) and the `/check-email`
and `/register` handlers are embedded for the claims about them.

Remote providers are modelled as oracles: each outside call is described
by the time at which it would settle and the value or error it would
settle with.  Time is wall-clock milliseconds accumulated across the
sequential awaits of one request; `withTimeout` races such an oracle
against a timer exactly as the `Promise.race` in the source does.
-/

namespace VatApi

/-- Decidable equality for `Except`, needed to evaluate the model on
concrete oracle outcomes. -/
def Except.toSum {ε α : Type} : Except ε α → Sum ε α
  | Except.error e => Sum.inl e
  | Except.ok a => Sum.inr a

instance {ε α : Type} [DecidableEq ε] [DecidableEq α] : DecidableEq (Except ε α) :=
  fun a b =>
    decidable_of_iff (Except.toSum a = Except.toSum b)
      (by cases a <;> cases b <;> simp [Except.toSum])

/-- The whitespace class removed by the `replace(/\s+/g, "")` in
`src/server.js:159` (the ASCII part of the JS `\s` class). -/
def jsSpace (c : Char) : Bool :=
  c == ' ' || c == '\t' || c == '\n' || c == '\r' || c == '\x0b' || c == '\x0c'

/-- `src/server.js:159`: `(req.body.vat_number || "").toUpperCase().replace(/\s+/g, "")`.
A missing `vat_number` reads as the empty string; the raw string is
uppercased and every whitespace character is removed. -/
def normalizeVat (vat_number : Option String) : String :=
  String.mk (((vat_number.getD "").data.map Char.toUpper).filter (fun c => !jsSpace c))

/-- `charsStartsWith pat s`: `pat` is a prefix of `s` (character lists). -/
def charsStartsWith : List Char → List Char → Bool
  | [], _ => true
  | _ :: _, [] => false
  | c :: cs, d :: ds => c == d && charsStartsWith cs ds

/-- `charsHasSub pat s`: `pat` occurs as a contiguous substring of `s`. -/
def charsHasSub (pat : List Char) : List Char → Bool
  | [] => charsStartsWith pat []
  | c :: rest => charsStartsWith pat (c :: rest) || charsHasSub pat rest

/-- Case-insensitive substring test: models `new RegExp(pat, "i").test(s)`
for a literal pattern `pat`. -/
def containsCI (s pat : String) : Bool :=
  charsHasSub (pat.data.map Char.toUpper) (s.data.map Char.toUpper)

/-- The alternatives of the fault pattern at `src/server.js:181`. -/
def transientMarkers : List String :=
  ["MS_UNAVAILABLE", "SERVICE_UNAVAILABLE", "temporarily", "timeout"]

/-- `src/server.js:173-182` (`isServiceUnavailable`): the fault detail text
(faultstring / response data / body / message, modelled as the error's
string) is tested against `/MS_UNAVAILABLE|SERVICE_UNAVAILABLE|temporarily|timeout/i`. -/
def isServiceUnavailable (errText : String) : Bool :=
  transientMarkers.any (fun p => containsCI errText p)

/-- One outside call as an oracle: after `dur` milliseconds the underlying
promise settles with `out` (a value, or a rejection carrying its fault
detail text). -/
structure Attempt (α : Type) where
  dur : Nat
  out : Except String α
  deriving DecidableEq

/-- `src/server.js:184-190` (`withTimeout`): race the call against a timer
of `ms` milliseconds.  If the call settles strictly before the timer it
wins unchanged; otherwise the timer rejects with `timeout_<label>` at
`ms`. -/
def withTimeout {α : Type} (a : Attempt α) (ms : Nat) (label : String) : Attempt α :=
  if a.dur < ms then a else ⟨ms, Except.error ("timeout_" ++ label)⟩

/-- The raw payload of a successful VIES `checkVat` call. -/
structure ViesRaw where
  valid : Bool
  name : Option String
  address : Option String
  deriving DecidableEq

/-- JS `x || null` on an optional string field: the empty string is falsy
and collapses to `null`. -/
def orNull (s : Option String) : Option String :=
  match s with
  | some "" => none
  | x => x

/-- What a provider check resolves with on success
(`{valid, name, address, source}` objects built at `src/server.js:195-200`,
`213-218` and `231-236`). -/
structure CheckResult where
  valid : Bool
  name : Option String
  address : Option String
  source : String
  deriving DecidableEq

/-- `src/server.js:192-201` (`viesCheck`): the WSDL fetch plus the
`checkVatAsync` call are one unit of work; on success the raw payload is
coerced (`!!result.valid`, `|| null`) and tagged `source: "vies"`. -/
def viesCheck (a : Attempt ViesRaw) : Attempt CheckResult :=
  ⟨a.dur, Except.map
    (fun r => ⟨r.valid, orNull r.name, orNull r.address, "vies"⟩) a.out⟩

/-- The JSON payload of a vatlayer endpoint answer
(fields read at `src/server.js:212-216` and `230-234`). -/
structure VatlayerData where
  valid : Option Bool
  validation_status : Option String
  format_valid : Option Bool
  company_name : Option String
  company_address : Option String
  deriving DecidableEq

/-- One `fetch` of a vatlayer endpoint: an HTTP-success answer with a
parsed JSON payload, a non-success status (`!r.ok`), or a thrown
network/parse exception — each settling after `dur` milliseconds. -/
inductive FetchOutcome where
  | ok (dur : Nat) (data : VatlayerData)
  | httpErr (dur : Nat)
  | exn (dur : Nat) (msg : String)
  deriving DecidableEq

/-- Time after which a fetch settles, whatever its outcome. -/
def FetchOutcome.time : FetchOutcome → Nat
  | FetchOutcome.ok d _ => d
  | FetchOutcome.httpErr d => d
  | FetchOutcome.exn d _ => d

/-- The validity formula shared by both vatlayer endpoints
(`src/server.js:212` and `230`):
`d.valid === true || d.validation_status === "valid" || d.format_valid === true`. -/
def vatlayerValid (d : VatlayerData) : Bool :=
  d.valid == some true || d.validation_status == some "valid" || d.format_valid == some true

/-- Second half of `vatlayerCheck` (`src/server.js:222-240`): the legacy
`apilayer.net` endpoint, tried once after `elapsed` ms already spent on
the first endpoint; tagged `source: "vatlayer-legacy"`; if it fails too,
the provider rejects with `vatlayer_unavailable`. -/
def vatlayerLegacy (elapsed : Nat) (f2 : FetchOutcome) : Attempt CheckResult :=
  match f2 with
  | FetchOutcome.ok d dat =>
      ⟨elapsed + d, Except.ok
        ⟨vatlayerValid dat, orNull dat.company_name, orNull dat.company_address,
         "vatlayer-legacy"⟩⟩
  | FetchOutcome.httpErr d => ⟨elapsed + d, Except.error "vatlayer_unavailable"⟩
  | FetchOutcome.exn d _ => ⟨elapsed + d, Except.error "vatlayer_unavailable"⟩

/-- `src/server.js:203-241` (`vatlayerCheck`): reject immediately with
`vatlayer_missing_key` when no credential is configured (empty/missing
env var is falsy); otherwise try the current `api.apilayer.com` endpoint
once (header credential, `source: "vatlayer"`), and on any non-success
status or exception try the legacy endpoint once. -/
def vatlayerCheck (key : Option String) (f1 f2 : FetchOutcome) : Attempt CheckResult :=
  if key.getD "" = "" then ⟨0, Except.error "vatlayer_missing_key"⟩
  else
    match f1 with
    | FetchOutcome.ok d dat =>
        ⟨d, Except.ok
          ⟨vatlayerValid dat, orNull dat.company_name, orNull dat.company_address,
           "vatlayer"⟩⟩
    | FetchOutcome.httpErr d => vatlayerLegacy d f2
    | FetchOutcome.exn d _ => vatlayerLegacy d f2

/-- The remote world one `/api/validate-vat` request runs against: the two
possible VIES calls, the configured vatlayer credential, and the two
vatlayer endpoint fetches. -/
structure Env where
  vies1 : Attempt ViesRaw
  vies2 : Attempt ViesRaw
  apiKey : Option String
  fetch1 : FetchOutcome
  fetch2 : FetchOutcome
  deriving DecidableEq

/-- `src/server.js:164` (`TIME_BUDGET_MS`). -/
def TIME_BUDGET_MS : Nat := 20000

/-- `src/server.js:166` (`timeLeft`): `Math.max(0, 20000 - elapsed)`
(truncated subtraction on `Nat`). -/
def timeLeft (elapsed : Nat) : Nat := TIME_BUDGET_MS - elapsed

/-- Which provider call an `AttemptLog` entry records. -/
inductive Provider where
  | vies1
  | vies2
  | vatlayer
  deriving DecidableEq

/-- Observation record of one started provider attempt: the provider, the
cap in milliseconds handed to `withTimeout`, and `timeLeft()` at the
moment the attempt was started. -/
structure AttemptLog where
  prov : Provider
  cap : Nat
  remaining : Nat
  deriving DecidableEq

/-- The local per-attempt caps of `src/server.js:252`, `258` and `269`. -/
def localCap : Provider → Nat
  | Provider.vies1 => 8000
  | Provider.vies2 => 6000
  | Provider.vatlayer => 8000

/-- The first VIES attempt as executed at `src/server.js:252-253`:
`withTimeout(viesCheck(), Math.min(8000, timeLeft()), "vies1")`. -/
def attempt1 (env : Env) : Attempt CheckResult :=
  withTimeout (viesCheck env.vies1) (min 8000 (timeLeft 0)) "vies1"

/-- The VIES retry as executed at `src/server.js:258-259`:
`withTimeout(viesCheck(), Math.min(6000, timeLeft()), "vies2")`, with
`timeLeft()` taken after the first attempt settled. -/
def attempt2 (env : Env) : Attempt CheckResult :=
  withTimeout (viesCheck env.vies2) (min 6000 (timeLeft (attempt1 env).dur)) "vies2"

/-- The vatlayer fallback as executed at `src/server.js:269-270`:
`withTimeout(vatlayerCheck(), Math.min(8000, timeLeft()), "vatlayer")`. -/
def fallbackAttempt (env : Env) (elapsed : Nat) : Attempt CheckResult :=
  withTimeout (vatlayerCheck env.apiKey env.fetch1 env.fetch2)
    (min 8000 (timeLeft elapsed)) "vatlayer"

/-- Body of a `/api/validate-vat` HTTP answer: either `{error}` or the
`{valid, name, address(, source)}` object of `res.json(...)`. -/
inductive VatBody where
  | err (msg : String)
  | result (valid : Bool) (name address : Option String) (source : Option String)
  deriving DecidableEq

/-- An HTTP answer: `res.status(s).json(body)`; a bare `res.json(body)`
is status 200. -/
structure HttpResponse where
  status : Nat
  body : VatBody
  deriving DecidableEq

/-- The fail-open answer of `src/server.js:248`, `278` and `282`:
`res.json({ valid: true, name: null, address: null })`. -/
def failOpenResponse : HttpResponse :=
  ⟨200, VatBody.result true none none none⟩

/-- `res.json(result)` for a provider success. -/
def CheckResult.toBody (r : CheckResult) : VatBody :=
  VatBody.result r.valid r.name r.address (some r.source)

/-- `src/server.js:267-275`: the vatlayer stage.  If budget remains, run
the fallback under its cap; a success is returned as is, any error falls
through to fail-open.  With no budget left the stage is skipped and the
request fails open directly. -/
def vatlayerStage (env : Env) (elapsed : Nat) (logs : List AttemptLog) :
    HttpResponse × List AttemptLog :=
  if 0 < timeLeft elapsed then
    match (fallbackAttempt env elapsed).out with
    | Except.ok r =>
        (⟨200, r.toBody⟩,
         logs ++ [⟨Provider.vatlayer, min 8000 (timeLeft elapsed), timeLeft elapsed⟩])
    | Except.error _ =>
        (failOpenResponse,
         logs ++ [⟨Provider.vatlayer, min 8000 (timeLeft elapsed), timeLeft elapsed⟩])
  else (failOpenResponse, logs)

/-- The log entry of the first VIES attempt. -/
def log1 : AttemptLog := ⟨Provider.vies1, min 8000 (timeLeft 0), timeLeft 0⟩

/-- The log entry of the VIES retry, started after the first attempt
settled. -/
def log2 (env : Env) : AttemptLog :=
  ⟨Provider.vies2, min 6000 (timeLeft (attempt1 env).dur), timeLeft (attempt1 env).dur⟩

/-- `src/server.js:255-275`: what the orchestrator does once the first
VIES attempt rejected with fault text `e1` — retry once on a transient
fault with budget left, then fall to the vatlayer stage. -/
def afterPrimaryFailure (env : Env) (e1 : String) : HttpResponse × List AttemptLog :=
  if isServiceUnavailable e1 ∧ 0 < timeLeft (attempt1 env).dur then
    match (attempt2 env).out with
    | Except.ok r2 => (⟨200, r2.toBody⟩, [log1, log2 env])
    | Except.error _ =>
        vatlayerStage env ((attempt1 env).dur + (attempt2 env).dur) [log1, log2 env]
  else vatlayerStage env (attempt1 env).dur [log1]

/-- `src/server.js:158-284`: the `POST /api/validate-vat` orchestrator.
Returns the HTTP answer together with the list of provider attempts that
were started (provider, cap, `timeLeft()` at start), in order. -/
def validateVat (vat_number : Option String) (env : Env) :
    HttpResponse × List AttemptLog :=
  let rawVat := normalizeVat vat_number
  if rawVat = "" ∨ rawVat.length < 3 then
    (⟨400, VatBody.err "Ungültige VAT-Nummer"⟩, [])
  else if timeLeft 0 = 0 then (failOpenResponse, [])
  else
    match (attempt1 env).out with
    | Except.ok r => (⟨200, r.toBody⟩, [log1])
    | Except.error e1 => afterPrimaryFailure env e1

/-- The remote world of the earlier revisions
(`src/unnamed/part_000` / `src/unnamed/part_001`, `/api/validate-vat`):
one un-capped VIES call that either resolves with a raw payload or
throws. -/
structure LegacyEnv where
  vies : Except String ViesRaw
  deriving DecidableEq

/-- `src/unnamed/part_001:15-41` (identical in `part_000`): the earlier
`/api/validate-vat` handler — no normalization, reject if the raw string
is falsy or shorter than 3 characters, one VIES call, and on any failure
`res.status(500).json({ error: "Fehler bei der VAT-Prüfung über VIES" })`. -/
def legacyValidateVat (vat_number : Option String) (env : LegacyEnv) : HttpResponse :=
  let v := vat_number.getD ""
  if v = "" ∨ v.length < 3 then ⟨400, VatBody.err "Ungültige VAT-Nummer"⟩
  else
    match env.vies with
    | Except.ok r => ⟨200, VatBody.result r.valid (orNull r.name) (orNull r.address) none⟩
    | Except.error _ => ⟨500, VatBody.err "Fehler bei der VAT-Prüfung über VIES"⟩

/-- A customer record of the commerce platform (only identity matters for
the claims). -/
structure Customer where
  id : Nat
  deriving DecidableEq

/-- One customer-directory search call (`fetch` at `src/server.js:299`):
an HTTP-success answer whose JSON carries the `customers` array, a
non-success status (`!response.ok`), or a thrown network/parse
exception. -/
inductive DirectoryOutcome where
  | ok (customers : List Customer)
  | httpErr (status : Nat)
  | exn (msg : String)
  deriving DecidableEq

/-- `true` on the two failure shapes of a directory call. -/
def dirFailed : DirectoryOutcome → Bool
  | DirectoryOutcome.ok _ => false
  | DirectoryOutcome.httpErr _ => true
  | DirectoryOutcome.exn _ => true

/-- `src/server.js:297-319` (`findCustomerByEmail`): a non-success status
returns `null`; the surrounding `try/catch` turns any exception into
`null`; otherwise `customers.length > 0 ? customers[0] : null`. -/
def findCustomerByEmail : DirectoryOutcome → Option Customer
  | DirectoryOutcome.ok cs => if cs.length > 0 then cs.head? else none
  | DirectoryOutcome.httpErr _ => none
  | DirectoryOutcome.exn _ => none

/-- Body of a `/check-email` answer: `{error}` or `{exists: b}`. -/
inductive EmailBody where
  | err (msg : String)
  | exists_ (b : Bool)
  deriving DecidableEq

/-- `src/server.js:322-340` (`POST /check-email`): reject a missing or
falsy email with 400, otherwise answer 200 `{exists: !!customer}`.
(The handler's own `catch` is unreachable since `findCustomerByEmail`
never throws.) -/
def checkEmail (email : Option String) (dir : DirectoryOutcome) : Nat × EmailBody :=
  if email.getD "" = "" then (400, EmailBody.err "Ungültige E-Mail")
  else (200, EmailBody.exists_ (findCustomerByEmail dir).isSome)

/-- The branch `/register` takes right after its directory lookup
(`src/server.js:347-351`). -/
inductive RegisterAction where
  | returnExisting (c : Customer)
  | attemptCreate
  deriving DecidableEq

/-- `src/server.js:347-351`: an existing customer short-circuits the
handler; otherwise it proceeds to build the payload and attempt the
create call. -/
def registerFirstStep (dir : DirectoryOutcome) : RegisterAction :=
  match findCustomerByEmail dir with
  | some c => RegisterAction.returnExisting c
  | none => RegisterAction.attemptCreate

/-- The transience predicate exactly as claim C6 words it: the fault text
matches the "unavailable" or "timeout" substrings (case-insensitively).
Stated from the claim, to be compared with `isServiceUnavailable` from
the source. -/
def claimTransientC6 (errText : String) : Bool :=
  containsCI errText "unavailable" || containsCI errText "timeout"

/-- The elapsed time at which the vatlayer stage starts once the first
VIES attempt has rejected with fault text `e1`: after the retry when one
was run (transient fault with budget left, mirroring the condition of
`afterPrimaryFailure`), directly after the first attempt otherwise. -/
def fallbackElapsed (env : Env) (e1 : String) : Nat :=
  if isServiceUnavailable e1 ∧ 0 < timeLeft (attempt1 env).dur then
    (attempt1 env).dur + (attempt2 env).dur
  else (attempt1 env).dur

/-- `true` exactly on the two failure shapes of one vatlayer endpoint
fetch (non-success status, or thrown exception). -/
def FetchOutcome.failed : FetchOutcome → Bool
  | FetchOutcome.ok _ _ => false
  | FetchOutcome.httpErr _ => true
  | FetchOutcome.exn _ _ => true

theorem withTimeout_dur_le {α : Type} (a : Attempt α) (ms : Nat) (l : String) :
    (withTimeout a ms l).dur ≤ ms := by
  unfold withTimeout
  split
  · exact Nat.le_of_lt (by assumption)
  · exact Nat.le_refl ms

theorem withTimeout_ok {α : Type} {a : Attempt α} {ms : Nat} {l : String} {r : α}
    (h : (withTimeout a ms l).out = Except.ok r) : a.out = Except.ok r ∧ a.dur < ms := by
  unfold withTimeout at h
  split at h
  · exact ⟨h, by assumption⟩
  · exact absurd h (by simp)

theorem viesCheck_dur (a : Attempt ViesRaw) : (viesCheck a).dur = a.dur := rfl

theorem viesCheck_source {a : Attempt ViesRaw} {r : CheckResult}
    (h : (viesCheck a).out = Except.ok r) : r.source = "vies" := by
  unfold viesCheck at h
  rcases ho : a.out with e | raw
  · rw [ho] at h; simp [Except.map] at h
  · rw [ho] at h; simp [Except.map] at h; rw [← h]

theorem attempt1_dur_le (env : Env) : (attempt1 env).dur ≤ 8000 :=
  withTimeout_dur_le _ _ _

theorem attempt2_dur_le (env : Env) : (attempt2 env).dur ≤ 6000 :=
  Nat.le_trans (withTimeout_dur_le _ _ _) (Nat.min_le_left _ _)

theorem timeLeft_pos_after1 (env : Env) : 0 < timeLeft (attempt1 env).dur := by
  have := attempt1_dur_le env
  unfold timeLeft TIME_BUDGET_MS
  omega

theorem timeLeft_pos_after2 (env : Env) :
    0 < timeLeft ((attempt1 env).dur + (attempt2 env).dur) := by
  have h1 := attempt1_dur_le env
  have h2 := attempt2_dur_le env
  unfold timeLeft TIME_BUDGET_MS
  omega

theorem validateVat_invalid {v : Option String} (env : Env)
    (hw : normalizeVat v = "" ∨ (normalizeVat v).length < 3) :
    validateVat v env = (⟨400, VatBody.err "Ungültige VAT-Nummer"⟩, []) := by
  unfold validateVat
  rw [if_pos hw]

theorem validateVat_first_ok {v : Option String} {env : Env} {r : CheckResult}
    (hw : ¬(normalizeVat v = "" ∨ (normalizeVat v).length < 3))
    (h : (attempt1 env).out = Except.ok r) :
    validateVat v env = (⟨200, r.toBody⟩, [log1]) := by
  unfold validateVat
  rw [if_neg hw, if_neg (by decide : ¬(timeLeft 0 = 0)), h]

theorem validateVat_first_err {v : Option String} {env : Env} {e1 : String}
    (hw : ¬(normalizeVat v = "" ∨ (normalizeVat v).length < 3))
    (h : (attempt1 env).out = Except.error e1) :
    validateVat v env = afterPrimaryFailure env e1 := by
  unfold validateVat
  rw [if_neg hw, if_neg (by decide : ¬(timeLeft 0 = 0)), h]

theorem afterPrimaryFailure_retry_ok {env : Env} {e1 : String} {r2 : CheckResult}
    (ht : isServiceUnavailable e1 = true)
    (h2 : (attempt2 env).out = Except.ok r2) :
    afterPrimaryFailure env e1 = (⟨200, r2.toBody⟩, [log1, log2 env]) := by
  unfold afterPrimaryFailure
  rw [if_pos ⟨ht, timeLeft_pos_after1 env⟩, h2]

theorem afterPrimaryFailure_retry_err {env : Env} {e1 e2 : String}
    (ht : isServiceUnavailable e1 = true)
    (h2 : (attempt2 env).out = Except.error e2) :
    afterPrimaryFailure env e1
      = vatlayerStage env ((attempt1 env).dur + (attempt2 env).dur) [log1, log2 env] := by
  unfold afterPrimaryFailure
  rw [if_pos ⟨ht, timeLeft_pos_after1 env⟩, h2]

theorem afterPrimaryFailure_permanent {env : Env} {e1 : String}
    (ht : isServiceUnavailable e1 = false) :
    afterPrimaryFailure env e1 = vatlayerStage env (attempt1 env).dur [log1] := by
  unfold afterPrimaryFailure
  rw [if_neg (fun hc => by rw [ht] at hc; exact absurd hc.1 (by simp))]

theorem vatlayerStage_ok {env : Env} {elapsed : Nat} {logs : List AttemptLog}
    {r : CheckResult} (hpos : 0 < timeLeft elapsed)
    (h : (fallbackAttempt env elapsed).out = Except.ok r) :
    vatlayerStage env elapsed logs = (⟨200, r.toBody⟩,
      logs ++ [⟨Provider.vatlayer, min 8000 (timeLeft elapsed), timeLeft elapsed⟩]) := by
  unfold vatlayerStage
  rw [if_pos hpos, h]

theorem vatlayerStage_err {env : Env} {elapsed : Nat} {logs : List AttemptLog}
    {e : String} (hpos : 0 < timeLeft elapsed)
    (h : (fallbackAttempt env elapsed).out = Except.error e) :
    vatlayerStage env elapsed logs = (failOpenResponse,
      logs ++ [⟨Provider.vatlayer, min 8000 (timeLeft elapsed), timeLeft elapsed⟩]) := by
  unfold vatlayerStage
  rw [if_pos hpos, h]

theorem vatlayerStage_status (env : Env) (elapsed : Nat) (logs : List AttemptLog) :
    (vatlayerStage env elapsed logs).1.status = 200 := by
  unfold vatlayerStage
  split
  · split <;> rfl
  · rfl

theorem vatlayerStage_logs (env : Env) (elapsed : Nat) (logs : List AttemptLog) :
    ((vatlayerStage env elapsed logs).2 = logs ∧ timeLeft elapsed = 0) ∨
    ((vatlayerStage env elapsed logs).2
        = logs ++ [⟨Provider.vatlayer, min 8000 (timeLeft elapsed), timeLeft elapsed⟩]
      ∧ 0 < timeLeft elapsed) := by
  unfold vatlayerStage
  split
  · right
    constructor
    · split <;> rfl
    · assumption
  · left
    exact ⟨rfl, by omega⟩

/-- A world where the first VIES call resolves quickly and successfully. -/
def envPrimaryOk : Env :=
  ⟨⟨100, Except.ok ⟨true, some "ACME GmbH", none⟩⟩, ⟨0, Except.error "unused"⟩,
   none, FetchOutcome.httpErr 1, FetchOutcome.httpErr 1⟩

/-- A world where every provider call fails quickly and no vatlayer
credential is configured. -/
def envTotalFailure : Env :=
  ⟨⟨100, Except.error "ECONNRESET"⟩, ⟨100, Except.error "ECONNRESET"⟩,
   none, FetchOutcome.httpErr 50, FetchOutcome.httpErr 50⟩

/-- A world where both VIES calls fail with transient faults and the
vatlayer legacy endpoint would answer. -/
def envTransientFailure : Env :=
  ⟨⟨100, Except.error "MS_UNAVAILABLE"⟩, ⟨200, Except.error "SERVICE_UNAVAILABLE"⟩,
   some "key", FetchOutcome.httpErr 50, FetchOutcome.exn 30 "parse"⟩

/-- C3: normalization uppercases the raw input and strips all whitespace
(a missing `vat_number` normalizes to `""`), and any input whose
normalized form is shorter than 3 characters is answered with the 400
error while the attempt log stays empty — no provider is contacted and
no time budget is consumed. -/
theorem invalid_input_rejected (v : Option String) (env : Env)
    (h : (normalizeVat v).length < 3) :
    validateVat v env = (⟨400, VatBody.err "Ungültige VAT-Nummer"⟩, [])
    ∧ normalizeVat none = ""
    ∧ (∀ s : String, (normalizeVat (some s)).data
        = (s.data.map Char.toUpper).filter (fun c => !jsSpace c))
    ∧ (∀ (s : String) (c : Char), c ∈ (normalizeVat (some s)).data → jsSpace c = false) := by
  refine ⟨validateVat_invalid env (Or.inr h), rfl, fun s => rfl, ?_⟩
  intro s c hc
  have hm : c ∈ (((some s : Option String).getD "").data.map Char.toUpper).filter
      (fun c => !jsSpace c) := hc
  have := List.of_mem_filter hm
  simpa using this

theorem invalid_input_rejected_witness :
    validateVat (some "X") envPrimaryOk = (⟨400, VatBody.err "Ungültige VAT-Nummer"⟩, []) :=
  (invalid_input_rejected (some "X") envPrimaryOk (by decide)).1

/-- C5: the secondary provider tries the current endpoint (header
credential) and then the legacy endpoint (query credential), each exactly
once, returning the first HTTP-success answer with a parseable payload;
validity is `valid === true ∨ validation_status === "valid" ∨
format_valid === true`; it fails — with `vatlayer_missing_key` when no
credential is configured and `vatlayer_unavailable` when both endpoints
fail — exactly when no endpoint succeeds (the spec's abstract name for
either failure is `secondary_unavailable`). -/
theorem secondary_provider_behavior (key : Option String) (f1 f2 : FetchOutcome) :
    (key.getD "" = "" →
        vatlayerCheck key f1 f2 = ⟨0, Except.error "vatlayer_missing_key"⟩)
    ∧ (key.getD "" ≠ "" →
        (∀ d dat, f1 = FetchOutcome.ok d dat →
            vatlayerCheck key f1 f2
              = ⟨d, Except.ok ⟨vatlayerValid dat, orNull dat.company_name,
                  orNull dat.company_address, "vatlayer"⟩⟩)
        ∧ (FetchOutcome.failed f1 = true → ∀ d dat, f2 = FetchOutcome.ok d dat →
            vatlayerCheck key f1 f2
              = ⟨FetchOutcome.time f1 + d, Except.ok ⟨vatlayerValid dat,
                  orNull dat.company_name, orNull dat.company_address,
                  "vatlayer-legacy"⟩⟩)
        ∧ (FetchOutcome.failed f1 = true → FetchOutcome.failed f2 = true →
            (vatlayerCheck key f1 f2).out = Except.error "vatlayer_unavailable"))
    ∧ (∀ dat : VatlayerData, vatlayerValid dat = true ↔
        (dat.valid = some true ∨ dat.validation_status = some "valid"
          ∨ dat.format_valid = some true)) := by
  refine ⟨fun hk => by simp [vatlayerCheck, hk], fun hk => ⟨?_, ?_, ?_⟩, fun dat => ?_⟩
  · rintro d dat rfl
    simp [vatlayerCheck, hk]
  · rintro hf d dat rfl
    cases f1 with
    | ok d1 dat1 => simp [FetchOutcome.failed] at hf
    | httpErr d1 => simp [vatlayerCheck, hk, vatlayerLegacy, FetchOutcome.time]
    | exn d1 m => simp [vatlayerCheck, hk, vatlayerLegacy, FetchOutcome.time]
  · intro hf1 hf2
    cases f1 with
    | ok d1 dat1 => simp [FetchOutcome.failed] at hf1
    | httpErr d1 =>
        cases f2 with
        | ok d2 dat2 => simp [FetchOutcome.failed] at hf2
        | httpErr d2 => simp [vatlayerCheck, hk, vatlayerLegacy]
        | exn d2 m2 => simp [vatlayerCheck, hk, vatlayerLegacy]
    | exn d1 m =>
        cases f2 with
        | ok d2 dat2 => simp [FetchOutcome.failed] at hf2
        | httpErr d2 => simp [vatlayerCheck, hk, vatlayerLegacy]
        | exn d2 m2 => simp [vatlayerCheck, hk, vatlayerLegacy]
  · simp [vatlayerValid, Bool.or_eq_true, beq_iff_eq, or_assoc]

theorem secondary_provider_behavior_witness :
    vatlayerCheck (some "KEY") (FetchOutcome.httpErr 40)
        (FetchOutcome.ok 30 ⟨none, some "valid", none, some "ACME", none⟩)
      = ⟨70, Except.ok ⟨true, some "ACME", none, "vatlayer-legacy"⟩⟩ := by
  have h := secondary_provider_behavior (some "KEY") (FetchOutcome.httpErr 40)
      (FetchOutcome.ok 30 ⟨none, some "valid", none, some "ACME", none⟩)
  have h2 := (h.2.1 (by decide)).2.1 (by decide) 30
      ⟨none, some "valid", none, some "ACME", none⟩ rfl
  exact h2

/-- C6 counterexample: the claim's classifier — transient iff the fault
text contains "unavailable" or "timeout" — disagrees with the code's
`isServiceUnavailable` in both directions: a bare "unavailable" is NOT
transient for the code (only the `MS_UNAVAILABLE` / `SERVICE_UNAVAILABLE`
forms match), while "temporarily overloaded" IS transient for the code
though it contains neither claimed marker. -/
theorem transient_marker_counterexample :
    claimTransientC6 "unavailable" = true
    ∧ isServiceUnavailable "unavailable" = false
    ∧ isServiceUnavailable "temporarily overloaded" = true
    ∧ claimTransientC6 "temporarily overloaded" = false := by decide

/-- C6 (amended): a primary failure is transient iff its fault detail
text matches, case-insensitively, one of the fault markers
`MS_UNAVAILABLE`, `SERVICE_UNAVAILABLE`, `temporarily`, `timeout`; every
failure not matching that pattern is permanent: the orchestrator starts
no retry against the primary and no `vies2` attempt appears in the log. -/
theorem transient_classification (s : String) :
    (isServiceUnavailable s = true ↔
        (containsCI s "MS_UNAVAILABLE" = true ∨ containsCI s "SERVICE_UNAVAILABLE" = true
          ∨ containsCI s "temporarily" = true ∨ containsCI s "timeout" = true))
    ∧ (∀ (v : Option String) (env : Env) (e1 : String),
        ¬(normalizeVat v = "" ∨ (normalizeVat v).length < 3) →
        (attempt1 env).out = Except.error e1 →
        isServiceUnavailable e1 = false →
        ∀ lg ∈ (validateVat v env).2, lg.prov ≠ Provider.vies2) := by
  constructor
  · simp [isServiceUnavailable, transientMarkers, List.any, Bool.or_eq_true]
  · intro v env e1 hw h1 ht
    rw [validateVat_first_err hw h1, afterPrimaryFailure_permanent ht]
    rcases vatlayerStage_logs env (attempt1 env).dur [log1] with ⟨hl, hz⟩ | ⟨hl, _⟩
    · exact absurd hz (by have := timeLeft_pos_after1 env; omega)
    · rw [hl]
      intro lg hlg
      rcases (by simpa using hlg : lg = log1 ∨
          lg = ⟨Provider.vatlayer, min 8000 (timeLeft (attempt1 env).dur),
                timeLeft (attempt1 env).dur⟩) with rfl | rfl
      · simp [log1]
      · simp

theorem transient_classification_witness :
    isServiceUnavailable "Connection timeout" = true :=
  (transient_classification "Connection timeout").1.mpr
    (Or.inr (Or.inr (Or.inr (by decide))))

/-- C7: the orchestrated handler answers 400 (with the input-error body)
exactly for identifiers failing normalization, and answers with status
200 on every other path — provider failures, timeouts, missing
credential, budget exhaustion — so no 5xx is ever produced. -/
theorem only_input_error (v : Option String) (env : Env) :
    ((validateVat v env).1 = ⟨400, VatBody.err "Ungültige VAT-Nummer"⟩
        ∧ (normalizeVat v).length < 3)
    ∨ (validateVat v env).1.status = 200 := by
  by_cases hw : normalizeVat v = "" ∨ (normalizeVat v).length < 3
  · left
    refine ⟨by rw [validateVat_invalid env hw], ?_⟩
    rcases hw with h | h
    · rw [h]; decide
    · exact h
  · right
    rcases h1 : (attempt1 env).out with e1 | r
    · rw [validateVat_first_err hw h1]
      unfold afterPrimaryFailure
      split
      · split
        · rfl
        · exact vatlayerStage_status env _ _
      · exact vatlayerStage_status env _ _
    · rw [validateVat_first_ok hw h1]

theorem only_input_error_witness :
    ((validateVat (some "X") envPrimaryOk).1 = ⟨400, VatBody.err "Ungültige VAT-Nummer"⟩
        ∧ (normalizeVat (some "X")).length < 3)
    ∨ (validateVat (some "X") envPrimaryOk).1.status = 200 :=
  only_input_error (some "X") envPrimaryOk

/-- C8: if the first VIES attempt resolves successfully (within its cap),
the orchestrator returns that result immediately with `source = "vies"`
(the primary source tag), and the attempt log holds exactly the one
primary attempt — no retry, no secondary call. -/
theorem primary_first_success (v : Option String) (env : Env) (r : CheckResult)
    (hw : ¬(normalizeVat v = "" ∨ (normalizeVat v).length < 3))
    (h : (attempt1 env).out = Except.ok r) :
    (validateVat v env).1 = ⟨200, VatBody.result r.valid r.name r.address (some "vies")⟩
    ∧ (validateVat v env).2 = [⟨Provider.vies1, 8000, 20000⟩] := by
  have hs : r.source = "vies" := viesCheck_source (withTimeout_ok h).1
  rw [validateVat_first_ok hw h]
  exact ⟨by simp [CheckResult.toBody, hs], rfl⟩

theorem primary_first_success_witness :
    (validateVat (some "DE123456789") envPrimaryOk).1
      = ⟨200, VatBody.result true (some "ACME GmbH") none (some "vies")⟩
    ∧ (validateVat (some "DE123456789") envPrimaryOk).2
      = [⟨Provider.vies1, 8000, 20000⟩] :=
  primary_first_success (some "DE123456789") envPrimaryOk
    ⟨true, some "ACME GmbH", none, "vies"⟩ (by decide) (by decide)

/-- C1: when no provider produces a usable answer within the time budget
— the first primary attempt fails or times out under its cap, the retry
(whenever one is run, i.e. on a transient first fault) fails or times out
under its cap, and the secondary attempt, started at whatever time the
executed path reaches it, fails or times out under its actual allotted
cap `min(8000, remaining)` — the orchestrator answers fail-open:
status 200 with body `{valid: true, name: null, address: null}`.  This
covers both plain failure and budget exhaustion: a call that would
succeed only after the remaining budget is converted by the race into a
timeout rejection. -/
theorem fail_open_default (v : Option String) (env : Env) (e1 : String)
    (hw : ¬(normalizeVat v = "" ∨ (normalizeVat v).length < 3))
    (h1 : (attempt1 env).out = Except.error e1)
    (h2 : isServiceUnavailable e1 = true →
        ∃ e2, (attempt2 env).out = Except.error e2)
    (h3 : ∃ e3, (fallbackAttempt env (fallbackElapsed env e1)).out = Except.error e3) :
    (validateVat v env).1 = ⟨200, VatBody.result true none none none⟩ := by
  rw [validateVat_first_err hw h1]
  by_cases ht : isServiceUnavailable e1 = true
  · have hfe : fallbackElapsed env e1 = (attempt1 env).dur + (attempt2 env).dur := by
      unfold fallbackElapsed
      rw [if_pos ⟨ht, timeLeft_pos_after1 env⟩]
    obtain ⟨e2, ha2⟩ := h2 ht
    rw [afterPrimaryFailure_retry_err ht ha2]
    rw [hfe] at h3
    obtain ⟨e3, hfb⟩ := h3
    rw [vatlayerStage_err (timeLeft_pos_after2 env) hfb]
    rfl
  · have ht' : isServiceUnavailable e1 = false := by
      revert ht; cases isServiceUnavailable e1 <;> simp
    have hfe : fallbackElapsed env e1 = (attempt1 env).dur := by
      unfold fallbackElapsed
      rw [if_neg (fun hc => by rw [ht'] at hc; exact absurd hc.1 (by simp))]
    rw [afterPrimaryFailure_permanent ht']
    rw [hfe] at h3
    obtain ⟨e3, hfb⟩ := h3
    rw [vatlayerStage_err (timeLeft_pos_after1 env) hfb]
    rfl

/-- A world exercising budget exhaustion: both VIES calls outlast their
caps, and the vatlayer endpoint would answer successfully at 6500 ms —
but by then only 6000 ms of budget remain, so the race times it out. -/
def envBudgetExhausted : Env :=
  ⟨⟨9000, Except.ok ⟨true, none, none⟩⟩, ⟨7000, Except.ok ⟨true, none, none⟩⟩,
   some "key", FetchOutcome.ok 6500 ⟨some true, none, none, none, none⟩,
   FetchOutcome.httpErr 10⟩

theorem fail_open_default_witness :
    (validateVat (some "DE123456789") envBudgetExhausted).1
      = ⟨200, VatBody.result true none none none⟩ :=
  fail_open_default (some "DE123456789") envBudgetExhausted "timeout_vies1"
    (by decide) (by decide)
    (fun _ => ⟨"timeout_vies2", by decide⟩)
    ⟨"timeout_vatlayer", by decide⟩

/-- C2: once the first VIES attempt has rejected with fault text `e1`
(budget always remains at that point, since the first cap is 8 s of a
20 s budget): on a transient fault exactly one retry is started, capped
at `min(6000, remaining)`, and every later log entry is the secondary —
in particular, if the retry also fails, exactly one secondary attempt
follows; on a permanent (non-transient) fault no retry is started and
control falls directly to the single secondary attempt. -/
theorem retry_policy (v : Option String) (env : Env) (e1 : String)
    (hw : ¬(normalizeVat v = "" ∨ (normalizeVat v).length < 3))
    (h1 : (attempt1 env).out = Except.error e1) :
    (isServiceUnavailable e1 = true →
        ∃ rest, (validateVat v env).2
            = ⟨Provider.vies1, 8000, 20000⟩
              :: ⟨Provider.vies2, min 6000 (timeLeft (attempt1 env).dur),
                  timeLeft (attempt1 env).dur⟩ :: rest
          ∧ (∀ lg ∈ rest, lg.prov = Provider.vatlayer)
          ∧ (∀ e2, (attempt2 env).out = Except.error e2 →
              ∃ lg, rest = [lg] ∧ lg.prov = Provider.vatlayer))
    ∧ (isServiceUnavailable e1 = false →
        ∃ lg, (validateVat v env).2 = [⟨Provider.vies1, 8000, 20000⟩, lg]
          ∧ lg.prov = Provider.vatlayer) := by
  rw [validateVat_first_err hw h1]
  constructor
  · intro ht
    rcases h2 : (attempt2 env).out with e2 | r2
    · rw [afterPrimaryFailure_retry_err ht h2]
      rcases vatlayerStage_logs env ((attempt1 env).dur + (attempt2 env).dur)
          [log1, log2 env] with ⟨_, hz⟩ | ⟨hl, _⟩
      · exact absurd hz (by have := timeLeft_pos_after2 env; omega)
      · rw [hl]
        refine ⟨[⟨Provider.vatlayer,
            min 8000 (timeLeft ((attempt1 env).dur + (attempt2 env).dur)),
            timeLeft ((attempt1 env).dur + (attempt2 env).dur)⟩], rfl, ?_, ?_⟩
        · intro lg hlg
          rw [List.mem_singleton] at hlg
          rw [hlg]
        · intro e2' _
          exact ⟨_, rfl, rfl⟩
    · rw [afterPrimaryFailure_retry_ok ht h2]
      refine ⟨[], rfl, by simp, ?_⟩
      intro e2 he2
      simp at he2
  · intro ht
    rw [afterPrimaryFailure_permanent ht]
    rcases vatlayerStage_logs env (attempt1 env).dur [log1] with ⟨_, hz⟩ | ⟨hl, _⟩
    · exact absurd hz (by have := timeLeft_pos_after1 env; omega)
    · rw [hl]
      exact ⟨_, rfl, rfl⟩

theorem retry_policy_witness :
    (validateVat (some "DE123456789") envTransientFailure).2.length = 3 := by
  obtain ⟨rest, hl, _, hone⟩ :=
    (retry_policy (some "DE123456789") envTransientFailure "MS_UNAVAILABLE"
      (by decide) (by decide)).1 (by decide)
  obtain ⟨lg, hrest, _⟩ := hone "SERVICE_UNAVAILABLE" (by decide)
  rw [hl, hrest]
  rfl

/-- C4: every provider attempt the orchestrator starts is started with
strictly positive remaining budget (out of the single 20 s deadline fixed
at request start) and is allotted exactly `min(local cap, remaining)` —
8000 ms for the first primary attempt, 6000 ms for the retry, 8000 ms for
the secondary; and the remaining budget never increases along the
sequence of attempts (the deadline is never reset). -/
theorem time_budget_invariant (v : Option String) (env : Env) :
    (∀ lg ∈ (validateVat v env).2,
        0 < lg.remaining ∧ lg.remaining ≤ TIME_BUDGET_MS
          ∧ lg.cap = min (localCap lg.prov) lg.remaining)
    ∧ List.Chain' (fun a b => b.remaining ≤ a.remaining) (validateVat v env).2 := by
  have hd1 := attempt1_dur_le env
  have hd2 := attempt2_dur_le env
  have hlog1 : 0 < log1.remaining ∧ log1.remaining ≤ TIME_BUDGET_MS
      ∧ log1.cap = min (localCap log1.prov) log1.remaining := by decide
  have hlog2 : 0 < (log2 env).remaining ∧ (log2 env).remaining ≤ TIME_BUDGET_MS
      ∧ (log2 env).cap = min (localCap (log2 env).prov) (log2 env).remaining := by
    refine ⟨timeLeft_pos_after1 env, ?_, rfl⟩
    simp only [log2, timeLeft, TIME_BUDGET_MS]
    omega
  have hvat : ∀ elapsed : Nat, 0 < timeLeft elapsed →
      (0 < (⟨Provider.vatlayer, min 8000 (timeLeft elapsed), timeLeft elapsed⟩
          : AttemptLog).remaining
        ∧ (⟨Provider.vatlayer, min 8000 (timeLeft elapsed), timeLeft elapsed⟩
          : AttemptLog).remaining ≤ TIME_BUDGET_MS
        ∧ (⟨Provider.vatlayer, min 8000 (timeLeft elapsed), timeLeft elapsed⟩
          : AttemptLog).cap
            = min (localCap (⟨Provider.vatlayer, min 8000 (timeLeft elapsed),
                timeLeft elapsed⟩ : AttemptLog).prov)
              (⟨Provider.vatlayer, min 8000 (timeLeft elapsed), timeLeft elapsed⟩
                : AttemptLog).remaining) := by
    intro elapsed hpos
    refine ⟨hpos, ?_, rfl⟩
    simp only [timeLeft, TIME_BUDGET_MS]
    omega
  by_cases hw : normalizeVat v = "" ∨ (normalizeVat v).length < 3
  · rw [validateVat_invalid env hw]
    exact ⟨by simp, by simp⟩
  · rcases ha1 : (attempt1 env).out with e1 | r
    · rw [validateVat_first_err hw ha1]
      by_cases ht : isServiceUnavailable e1 = true
      · rcases ha2 : (attempt2 env).out with e2 | r2
        · rw [afterPrimaryFailure_retry_err ht ha2]
          rcases vatlayerStage_logs env ((attempt1 env).dur + (attempt2 env).dur)
              [log1, log2 env] with ⟨_, hz⟩ | ⟨hl, hpos⟩
          · exact absurd hz (by have := timeLeft_pos_after2 env; omega)
          · rw [hl]
            constructor
            · intro lg hlg
              rcases (by simpa using hlg : lg = log1 ∨ lg = log2 env ∨
                  lg = ⟨Provider.vatlayer,
                    min 8000 (timeLeft ((attempt1 env).dur + (attempt2 env).dur)),
                    timeLeft ((attempt1 env).dur + (attempt2 env).dur)⟩)
                with rfl | rfl | rfl
              · exact hlog1
              · exact hlog2
              · exact hvat _ hpos
            · refine List.chain'_cons.2 ⟨?_, List.chain'_cons.2 ⟨?_, List.chain'_singleton _⟩⟩
              · simp only [log1, log2, timeLeft, TIME_BUDGET_MS]
                omega
              · simp only [log2, timeLeft, TIME_BUDGET_MS]
                omega
        · rw [afterPrimaryFailure_retry_ok ht ha2]
          constructor
          · intro lg hlg
            rcases (by simpa using hlg : lg = log1 ∨ lg = log2 env) with rfl | rfl
            · exact hlog1
            · exact hlog2
          · refine List.chain'_cons.2 ⟨?_, List.chain'_singleton _⟩
            simp only [log1, log2, timeLeft, TIME_BUDGET_MS]
            omega
      · have ht' : isServiceUnavailable e1 = false := by
          revert ht; cases isServiceUnavailable e1 <;> simp
        rw [afterPrimaryFailure_permanent ht']
        rcases vatlayerStage_logs env (attempt1 env).dur [log1]
            with ⟨_, hz⟩ | ⟨hl, hpos⟩
        · exact absurd hz (by have := timeLeft_pos_after1 env; omega)
        · rw [hl]
          constructor
          · intro lg hlg
            rcases (by simpa using hlg : lg = log1 ∨
                lg = ⟨Provider.vatlayer, min 8000 (timeLeft (attempt1 env).dur),
                  timeLeft (attempt1 env).dur⟩) with rfl | rfl
            · exact hlog1
            · exact hvat _ hpos
          · refine List.chain'_cons.2 ⟨?_, List.chain'_singleton _⟩
            simp only [log1, timeLeft, TIME_BUDGET_MS]
            omega
    · rw [validateVat_first_ok hw ha1]
      exact ⟨fun lg hlg => by
          rcases (by simpa using hlg : lg = log1) with rfl
          exact hlog1,
        List.chain'_singleton _⟩

theorem time_budget_invariant_witness :
    0 < log1.remaining ∧ log1.remaining ≤ TIME_BUDGET_MS
      ∧ log1.cap = min (localCap log1.prov) log1.remaining :=
  (time_budget_invariant (some "DE123456789") envPrimaryOk).1 log1 (by decide)

/-- C9 counterexample: in the earlier revision, a total failure of the
VAT check (the VIES call throwing) is answered with HTTP status 500 —
not the 503 the claim states. -/
theorem legacy_total_failure_counterexample :
    legacyValidateVat (some "DE123456789") ⟨Except.error "ECONNREFUSED"⟩
      = ⟨500, VatBody.err "Fehler bei der VAT-Prüfung über VIES"⟩
    ∧ (legacyValidateVat (some "DE123456789") ⟨Except.error "ECONNREFUSED"⟩).status
      ≠ 503 := by decide

/-- C9 (amended): in the earlier/alternate revision, total failure of the
VAT check (the registry call throwing) is surfaced to the caller as a
500 `{error}` response instead of the fail-open default. -/
theorem legacy_total_failure_500 (v : Option String) (env : LegacyEnv) (e : String)
    (hv : ¬(v.getD "" = "" ∨ (v.getD "").length < 3))
    (he : env.vies = Except.error e) :
    legacyValidateVat v env = ⟨500, VatBody.err "Fehler bei der VAT-Prüfung über VIES"⟩ := by
  unfold legacyValidateVat
  rw [if_neg hv, he]

theorem legacy_total_failure_500_witness :
    legacyValidateVat (some "DE123456789") ⟨Except.error "ETIMEDOUT"⟩
      = ⟨500, VatBody.err "Fehler bei der VAT-Prüfung über VIES"⟩ :=
  legacy_total_failure_500 (some "DE123456789") ⟨Except.error "ETIMEDOUT"⟩ "ETIMEDOUT"
    (by decide) rfl

/-- C10: the customer-directory lookup swallows every failure — any
non-success status and any thrown exception yield `null` — so
`/check-email` answers 200 `{exists: false}` when the directory is
unreachable, and `/register` proceeds to attempt customer creation. -/
theorem directory_failure_swallowed (d : DirectoryOutcome) (e : String)
    (hfail : dirFailed d = true) (he : ¬ e = "") :
    findCustomerByEmail d = none
    ∧ checkEmail (some e) d = (200, EmailBody.exists_ false)
    ∧ registerFirstStep d = RegisterAction.attemptCreate := by
  have hf : findCustomerByEmail d = none := by
    cases d with
    | ok cs => simp [dirFailed] at hfail
    | httpErr s => rfl
    | exn m => rfl
  refine ⟨hf, ?_, ?_⟩
  · simp [checkEmail, he, hf]
  · simp [registerFirstStep, hf]

theorem directory_failure_swallowed_witness :
    findCustomerByEmail (DirectoryOutcome.httpErr 503) = none
    ∧ checkEmail (some "kunde@example.com") (DirectoryOutcome.httpErr 503)
        = (200, EmailBody.exists_ false)
    ∧ registerFirstStep (DirectoryOutcome.httpErr 503) = RegisterAction.attemptCreate :=
  directory_failure_swallowed (DirectoryOutcome.httpErr 503) "kunde@example.com"
    rfl (by decide)

end VatApi
